import Mathlib

/-
Verification of the Atlas-Web flight-route planning UI (src/src/App.tsx),
as a shallow embedding in Lean 4.

Coordinates are modelled as pairs of integers (latitude, longitude); the
only operations the program performs on them are comparisons and min/max,
so the integer model is faithful to the ordering behaviour of the numeric
coordinates in the source.

The route persistence hook (useRoutes) and the Leaflet helpers
(L.latLngBounds) are external collaborators whose code is not under src/;
they are modelled from the spec where marked.
-/

namespace Atlas

/-- A coordinate pair: (latitude, longitude). -/
abbrev Coord := Int × Int

/-- A route record, per the data model: a name plus source and destination
coordinate pairs. -/
structure Route where
  name : String
  source : Coord
  destination : Coord
deriving Repr, DecidableEq

/-- The route store: a mapping from route name to route record, modelled as
an association list keyed by name (JS object with string keys). -/
abbrev Routes := List (String × Route)

/-- Indexing the route mapping by name (JS `routes[name]`): the value at the
first matching key, or none. -/
def lookupRoute (routes : Routes) (name : String) : Option Route :=
  match routes with
  | [] => none
  | (k, r) :: rest => if k = name then some r else lookupRoute rest name

/-- Modelled from the spec: the route persistence hook (useRoutes, not under
src/) exposes a delete operation that removes the entry for the given name if
present and is a no-op otherwise. -/
def deleteRoute (routes : Routes) (name : String) : Routes :=
  match routes with
  | [] => []
  | (k, r) :: rest => if k = name then deleteRoute rest name else (k, r) :: deleteRoute rest name

/-- Modelled from the spec: the route persistence hook (useRoutes, not under
src/) exposes an add operation that inserts or overwrites the entry for the
given name with the record built from the arguments. -/
def addRoute (routes : Routes) (name : String) (src dst : Coord) : Routes :=
  (name, { name := name, source := src, destination := dst }) :: deleteRoute routes name

/-- The without-parachute static lookup table from updateDensitySuppression. -/
def withoutParachute : String → Option Nat
  | "SAIL 2" => some 0
  | "SAIL 3" => some 5
  | "SAIL 4" => some 50
  | "SAIL 6" => some 5000
  | _ => none

/-- The with-parachute static lookup table from updateDensitySuppression. -/
def withParachute : String → Option Nat
  | "SAIL 2" => some 5
  | "SAIL 3" => some 50
  | "SAIL 4" => some 500
  | _ => none

/-- The density value computed by updateDensitySuppression: the selected
table's entry for the category, with `|| 0` supplying 0 when the key is
absent (the table values that exist are untouched by `|| 0` since the only
falsy table value is 0 itself). -/
def updateDensitySuppression (sail : String) (hasParachute : Bool) : Nat :=
  if hasParachute then (withParachute sail).getD 0 else (withoutParachute sail).getD 0

/-- The certSettings state object. -/
structure CertSettings where
  sail : String
  hasParachute : Bool
  densitySuppression : Nat
  relaxation : Int
deriving Repr, DecidableEq

/-- The initial certSettings state from the useState call. -/
def initCertSettings : CertSettings :=
  { sail := "SAIL 2", hasParachute := false, densitySuppression := 0, relaxation := 750 }

/-- The sail categories offered by the select element in a given state: the
"SAIL 6" option is rendered only when hasParachute is false. -/
def sailOptions (s : CertSettings) : List String :=
  ["SAIL 2", "SAIL 3", "SAIL 4"] ++ (if s.hasParachute then [] else ["SAIL 6"])

/-- The user-driven step relation on certSettings: the sail select onChange
(restricted to the rendered options; it also recomputes densitySuppression
with the new sail and current parachute flag), the parachute checkbox
onChange (unguarded; recomputes densitySuppression with the current sail and
new flag), and the relaxation (Controlled Area) input onChange. -/
inductive CertStep : CertSettings → CertSettings → Prop
  | sailChange (s : CertSettings) (v : String) (hv : v ∈ sailOptions s) :
      CertStep s { s with sail := v,
                          densitySuppression := updateDensitySuppression v s.hasParachute }
  | parachuteChange (s : CertSettings) (b : Bool) :
      CertStep s { s with hasParachute := b,
                          densitySuppression := updateDensitySuppression s.sail b }
  | relaxationChange (s : CertSettings) (n : Int) :
      CertStep s { s with relaxation := n }

/-- States reachable from the initial certSettings by the step relation. -/
inductive CertReachable : CertSettings → Prop
  | init : CertReachable initCertSettings
  | step {s s' : CertSettings} : CertReachable s → CertStep s s' → CertReachable s'

/-- The flightParams state object. -/
structure FlightParams where
  altitude : Int
  velocity : Int
  geography : Int
  contingency : Int
deriving Repr, DecidableEq

/-- The trajectorySettings state object. -/
structure TrajectorySettings where
  distanceFwd : Int
  distanceBack : Int
  minTurningRadius : Int
  maxWaypointDistance : Int
  maxLateralDrift : Int
deriving Repr, DecidableEq

/-- The three-way map layer selector. -/
inductive MapLayer
  | satellite
  | streets
  | hybrid
deriving Repr, DecidableEq

/-- The full local state of the App component. -/
structure AppState where
  selectedRoute : String
  showAddRoute : Bool
  isAnalyzing : Bool
  mapLayer : MapLayer
  flightParams : FlightParams
  certSettings : CertSettings
  trajectorySettings : TrajectorySettings
  routes : Routes
deriving Repr, DecidableEq

/-- The initial App state from the useState calls (routes start from whatever
the persistence hook holds; the empty mapping is used for concrete
instances). -/
def initAppState : AppState :=
  { selectedRoute := ""
    showAddRoute := false
    isAnalyzing := false
    mapLayer := .satellite
    flightParams := { altitude := 2500, velocity := 55, geography := 125, contingency := 300 }
    certSettings := initCertSettings
    trajectorySettings :=
      { distanceFwd := 200, distanceBack := 150, minTurningRadius := 50,
        maxWaypointDistance := 500, maxLateralDrift := 30 }
    routes := [] }

/-- handleAddRoute: add the route to the store, close the add-route modal,
and select the new route's name. -/
def handleAddRoute (s : AppState) (name : String) (src dst : Coord) : AppState :=
  { s with routes := addRoute s.routes name src dst
           showAddRoute := false
           selectedRoute := name }

/-- handleDeleteRoute: when a route is selected (nonempty name, JS
truthiness), delete it from the store and clear the selection; otherwise do
nothing. -/
def handleDeleteRoute (s : AppState) : AppState :=
  if s.selectedRoute = "" then s
  else { s with routes := deleteRoute s.routes s.selectedRoute, selectedRoute := "" }

/-- handleAnalyzePopulation: with no route selected (empty name, JS
truthiness), show the alert and return with the state unchanged; otherwise
set the analyzing flag and show no alert. The second component is the alert
message, when one is produced. -/
def handleAnalyzePopulation (s : AppState) : AppState × Option String :=
  if s.selectedRoute = "" then (s, some "Please select a route first")
  else ({ s with isAnalyzing := true }, none)

/-- The kind of a completed drawn layer: the instanceof checks distinguish
polygons and rectangles from every other layer kind. -/
inductive LayerKind
  | polygon
  | rectangle
  | other
deriving Repr, DecidableEq

/-- A drawn layer: its kind and its vertex list (getLatLngs). -/
structure DrawnLayer where
  kind : LayerKind
  latLngs : List Coord
deriving Repr, DecidableEq

/-- handleDrawComplete: for a polygon or rectangle, extract the vertex list
(the console.log output, the second component); for every layer, clear the
analyzing flag. -/
def handleDrawComplete (s : AppState) (layer : DrawnLayer) : AppState × Option (List Coord) :=
  match layer.kind with
  | .polygon => ({ s with isAnalyzing := false }, some layer.latLngs)
  | .rectangle => ({ s with isAnalyzing := false }, some layer.latLngs)
  | .other => ({ s with isAnalyzing := false }, none)

/-- A latitude/longitude box: south/north bound the latitudes, west/east
bound the longitudes. -/
structure LatLngBounds where
  south : Int
  north : Int
  west : Int
  east : Int
deriving Repr, DecidableEq

/-- Modelled from the spec: Leaflet's L.latLngBounds on the two endpoints
(code not under src/) computes the smallest bounding box containing both
points: coordinatewise min/max. -/
def latLngBounds (p q : Coord) : LatLngBounds :=
  { south := min p.1 q.1, north := max p.1 q.1, west := min p.2 q.2, east := max p.2 q.2 }

/-- The box contains the point. -/
def LatLngBounds.containsPt (b : LatLngBounds) (p : Coord) : Prop :=
  b.south ≤ p.1 ∧ p.1 ≤ b.north ∧ b.west ≤ p.2 ∧ p.2 ≤ b.east

/-- The first box is contained in the second. -/
def LatLngBounds.subsetOf (b b2 : LatLngBounds) : Prop :=
  b2.south ≤ b.south ∧ b.north ≤ b2.north ∧ b2.west ≤ b.west ∧ b.east ≤ b2.east

/-- A command issued to the external map widget. -/
inductive MapCommand
  | fitBounds (bounds : LatLngBounds) (padding : Nat × Nat)
deriving Repr, DecidableEq

/-- MapUpdater's effect body: when the selected route name is truthy
(nonempty) and indexing the mapping with it yields a route, issue one
fitBounds command on the box of the route's endpoints with padding
[50, 50]; otherwise issue no command. -/
def mapUpdater (selectedRoute : String) (routes : Routes) : List MapCommand :=
  if selectedRoute = "" then []
  else
    match lookupRoute routes selectedRoute with
    | some route =>
        [MapCommand.fitBounds (latLngBounds route.source route.destination) (50, 50)]
    | none => []

/-- Looking up a name in the store after deleting that name yields nothing. -/
theorem lookupRoute_deleteRoute (routes : Routes) (name : String) :
    lookupRoute (deleteRoute routes name) name = none := by
  induction routes with
  | nil => rfl
  | cons p rest ih =>
      obtain ⟨k, r⟩ := p
      by_cases h : k = name
      · simpa [deleteRoute, h] using ih
      · simpa [deleteRoute, lookupRoute, h] using ih

/-- Looking up a name in the store right after adding it yields the record
built from the add operation's arguments. -/
theorem lookupRoute_addRoute (routes : Routes) (name : String) (src dst : Coord) :
    lookupRoute (addRoute routes name src dst) name =
      some { name := name, source := src, destination := dst } := by
  simp [addRoute, lookupRoute]

/-- Claim C1: the density-suppression derivation returns the static-table
value for the given category and parachute flag: 50 for ("SAIL 4", no
parachute), 50 for ("SAIL 3", parachute), and 0 for every category absent
from the table selected by the parachute flag. -/
theorem claim1_densitySuppression :
    updateDensitySuppression "SAIL 4" false = 50 ∧
    updateDensitySuppression "SAIL 3" true = 50 ∧
    ∀ (sail : String) (hp : Bool),
      (if hp then withParachute sail else withoutParachute sail) = none →
      updateDensitySuppression sail hp = 0 := by
  refine ⟨rfl, rfl, ?_⟩
  intro sail hp h
  cases hp <;> simp_all [updateDensitySuppression]

/-- Witness for claim C1: the unrecognized category "SAIL 5" without a
parachute maps to 0. -/
theorem claim1_witness : updateDensitySuppression "SAIL 5" false = 0 :=
  claim1_densitySuppression.2.2 "SAIL 5" false rfl

/-- Counterexample to claim C2 as stated: the state with sail = "SAIL 6" and
hasParachute = true is reachable from the initial certification settings, by
selecting "SAIL 6" (offered while the parachute is unchecked) and then
checking the parachute (the checkbox step is unguarded). -/
theorem claim2_counterexample :
    CertReachable { sail := "SAIL 6", hasParachute := true,
                    densitySuppression := 0, relaxation := 750 } := by
  have h1 : CertStep initCertSettings
      { sail := "SAIL 6", hasParachute := false,
        densitySuppression := 5000, relaxation := 750 } := by
    have hs := CertStep.sailChange initCertSettings "SAIL 6"
      (by simp [sailOptions, initCertSettings])
    simpa [initCertSettings, updateDensitySuppression, withoutParachute] using hs
  have h2 : CertStep
      { sail := "SAIL 6", hasParachute := false,
        densitySuppression := 5000, relaxation := 750 }
      { sail := "SAIL 6", hasParachute := true,
        densitySuppression := 0, relaxation := 750 } := by
    have hp := CertStep.parachuteChange
      { sail := "SAIL 6", hasParachute := false,
        densitySuppression := 5000, relaxation := 750 } true
    simpa [updateDensitySuppression, withParachute] using hp
  exact CertReachable.step (CertReachable.step CertReachable.init h1) h2

/-- Claim C2 amended: the sail-select step cannot set sail to "SAIL 6" while
the parachute is checked (the option is not rendered), so any step that ends
in a state with hasParachute = true and sail = "SAIL 6" started with
"SAIL 6" already selected; the combined state is nevertheless reachable via
the unguarded parachute-checkbox step. -/
theorem claim2_amended (s s' : CertSettings) (hstep : CertStep s s')
    (hp : s'.hasParachute = true) (hs : s'.sail = "SAIL 6") : s.sail = "SAIL 6" := by
  cases hstep with
  | sailChange v hv =>
      exfalso
      simp only [] at hp hs
      simp [sailOptions, hp, hs] at hv
  | parachuteChange b => simpa using hs
  | relaxationChange n => simpa using hs

/-- Witness for claim C2's amended theorem: at the concrete parachute-check
step out of the state with "SAIL 6" selected, the source state indeed had
"SAIL 6" selected. -/
theorem claim2_witness :
    (⟨"SAIL 6", false, 5000, 750⟩ : CertSettings).sail = "SAIL 6" :=
  claim2_amended ⟨"SAIL 6", false, 5000, 750⟩ ⟨"SAIL 6", true, 0, 750⟩
    (by
      have hp := CertStep.parachuteChange
        (⟨"SAIL 6", false, 5000, 750⟩ : CertSettings) true
      simpa [updateDensitySuppression, withParachute] using hp)
    rfl rfl

/-- Claim C3: the analyze-populations action with no selected route produces
the user-facing alert and leaves the whole state unchanged (in particular the
analyzing flag is not set); with a route selected it sets the analyzing flag
and produces no alert. -/
theorem claim3_analyzePopulation (s : AppState) :
    (s.selectedRoute = "" →
      handleAnalyzePopulation s = (s, some "Please select a route first")) ∧
    (s.selectedRoute ≠ "" →
      handleAnalyzePopulation s = ({ s with isAnalyzing := true }, none)) := by
  constructor
  · intro h
    simp [handleAnalyzePopulation, h]
  · intro h
    simp [handleAnalyzePopulation, h]

/-- Witness for claim C3: at the initial state (no selection) the alert is
produced and the state is returned unchanged; with a selected route the
analyzing flag is set and no alert is produced. -/
theorem claim3_witness :
    handleAnalyzePopulation initAppState = (initAppState, some "Please select a route first") ∧
    handleAnalyzePopulation { initAppState with selectedRoute := "R1" } =
      ({ initAppState with selectedRoute := "R1", isAnalyzing := true }, none) :=
  ⟨(claim3_analyzePopulation initAppState).1 rfl,
   (claim3_analyzePopulation { initAppState with selectedRoute := "R1" }).2 (by decide)⟩

/-- Claim C4: in every state reachable from the initial certification
settings by the step relation, the densitySuppression field equals the
static-table lookup at the current sail and parachute flag. -/
theorem claim4_density_invariant (s : CertSettings) (h : CertReachable s) :
    s.densitySuppression = updateDensitySuppression s.sail s.hasParachute := by
  induction h with
  | init => rfl
  | step hr hstep ih =>
      cases hstep with
      | sailChange v hv => simp
      | parachuteChange b => simp
      | relaxationChange n => simpa using ih

/-- Witness for claim C4: the invariant at the initial state. -/
theorem claim4_witness :
    initCertSettings.densitySuppression =
      updateDensitySuppression initCertSettings.sail initCertSettings.hasParachute :=
  claim4_density_invariant initCertSettings CertReachable.init

/-- Claim C5: when a route name is selected, the delete action removes that
name from the store and clears the selection. -/
theorem claim5_deleteRoute (s : AppState) (h : s.selectedRoute ≠ "") :
    lookupRoute (handleDeleteRoute s).routes s.selectedRoute = none ∧
    (handleDeleteRoute s).selectedRoute = "" := by
  simp [handleDeleteRoute, h, lookupRoute_deleteRoute]

/-- Witness for claim C5: deleting the selected route "A" from a store
holding it leaves no entry for "A" and an empty selection. -/
theorem claim5_witness :
    lookupRoute
      (handleDeleteRoute
        { initAppState with
            selectedRoute := "A"
            routes := [("A", { name := "A", source := (0, 0), destination := (1, 1) })] }).routes
      "A" = none ∧
    (handleDeleteRoute
      { initAppState with
          selectedRoute := "A"
          routes := [("A", { name := "A", source := (0, 0), destination := (1, 1) })] }).selectedRoute
      = "" :=
  claim5_deleteRoute
    { initAppState with
        selectedRoute := "A"
        routes := [("A", { name := "A", source := (0, 0), destination := (1, 1) })] }
    (by decide)

/-- Claim C6: completing a polygon or rectangle draw while the analyzing
flag is set clears the analyzing flag. -/
theorem claim6_drawComplete (s : AppState) (layer : DrawnLayer)
    (_ha : s.isAnalyzing = true)
    (hk : layer.kind = LayerKind.polygon ∨ layer.kind = LayerKind.rectangle) :
    (handleDrawComplete s layer).1.isAnalyzing = false := by
  rcases hk with hk | hk <;> simp [handleDrawComplete, hk]

/-- Witness for claim C6: a rectangle completion out of an analyzing state
clears the flag. -/
theorem claim6_witness :
    (handleDrawComplete { initAppState with isAnalyzing := true }
      { kind := LayerKind.rectangle, latLngs := [] }).1.isAnalyzing = false :=
  claim6_drawComplete { initAppState with isAnalyzing := true }
    { kind := LayerKind.rectangle, latLngs := [] } rfl (Or.inr rfl)

/-- Claim C10: the draw-completion handler clears the analyzing flag for
every layer kind, and extracts no vertex list for a layer that is neither a
polygon nor a rectangle. -/
theorem claim10_drawComplete_all (s : AppState) (layer : DrawnLayer) :
    (handleDrawComplete s layer).1.isAnalyzing = false ∧
    (layer.kind = LayerKind.other → (handleDrawComplete s layer).2 = none) := by
  obtain ⟨k, ls⟩ := layer
  constructor
  · cases k <;> simp [handleDrawComplete]
  · intro hk
    simp only [] at hk
    simp [handleDrawComplete, hk]

/-- Witness for claim C10: a non-polygon, non-rectangle completion still
dismisses the drawing overlay, and no vertex list is extracted for it. -/
theorem claim10_witness :
    (handleDrawComplete initAppState { kind := LayerKind.other, latLngs := [] }).1.isAnalyzing
      = false ∧
    (handleDrawComplete initAppState { kind := LayerKind.other, latLngs := [] }).2 = none :=
  ⟨(claim10_drawComplete_all initAppState { kind := LayerKind.other, latLngs := [] }).1,
   (claim10_drawComplete_all initAppState { kind := LayerKind.other, latLngs := [] }).2 rfl⟩

/-- Counterexample to claim C7 as stated: the truthiness guard runs before
the lookup, so a route stored under the empty-string name resolves in the
mapping while the selection is the empty string, yet no fitBounds command is
issued. -/
theorem claim7_counterexample :
    lookupRoute [("", { name := "", source := (0, 0), destination := (1, 1) })] "" =
      some { name := "", source := (0, 0), destination := (1, 1) } ∧
    mapUpdater "" [("", { name := "", source := (0, 0), destination := (1, 1) })] = [] := by
  constructor
  · rfl
  · rfl

/-- Claim C7 amended: whenever the selected route name is nonempty and
resolves to a route in the mapping, the synchronizer issues exactly one
fitBounds command, on the box of the route's endpoints with padding (50, 50);
that box contains both endpoints and is contained in every box containing
both, so it is the smallest such bounding box. -/
theorem claim7_fitBounds (sel : String) (routes : Routes) (route : Route)
    (hsel : sel ≠ "") (hres : lookupRoute routes sel = some route) :
    mapUpdater sel routes =
      [MapCommand.fitBounds (latLngBounds route.source route.destination) (50, 50)] ∧
    (latLngBounds route.source route.destination).containsPt route.source ∧
    (latLngBounds route.source route.destination).containsPt route.destination ∧
    ∀ b : LatLngBounds, b.containsPt route.source → b.containsPt route.destination →
      (latLngBounds route.source route.destination).subsetOf b := by
  refine ⟨by simp [mapUpdater, hsel, hres], ?_, ?_, ?_⟩
  · exact ⟨min_le_left _ _, le_max_left _ _, min_le_left _ _, le_max_left _ _⟩
  · exact ⟨min_le_right _ _, le_max_right _ _, min_le_right _ _, le_max_right _ _⟩
  · intro b hb1 hb2
    exact ⟨le_min hb1.1 hb2.1, max_le hb1.2.1 hb2.2.1,
           le_min hb1.2.2.1 hb2.2.2.1, max_le hb1.2.2.2 hb2.2.2.2⟩

/-- Witness for claim C7's amended theorem: a selected route named "A"
yields exactly the one fitBounds command on its endpoint box. -/
theorem claim7_witness :
    mapUpdater "A" [("A", { name := "A", source := (3, 4), destination := (1, 2) })] =
      [MapCommand.fitBounds (latLngBounds (3, 4) (1, 2)) (50, 50)] :=
  (claim7_fitBounds "A"
    [("A", { name := "A", source := (3, 4), destination := (1, 2) })]
    { name := "A", source := (3, 4), destination := (1, 2) }
    (by decide) (by decide)).1

/-- Claim C8: when the selected route name is empty or does not resolve in
the mapping, the synchronizer issues no command to the map widget. -/
theorem claim8_noop (sel : String) (routes : Routes)
    (h : sel = "" ∨ lookupRoute routes sel = none) :
    mapUpdater sel routes = [] := by
  rcases h with h | h
  · simp [mapUpdater, h]
  · by_cases hsel : sel = "" <;> simp [mapUpdater, hsel, h]

/-- Witness for claim C8: the initial empty selection issues no command. -/
theorem claim8_witness : mapUpdater "" [] = [] :=
  claim8_noop "" [] (Or.inl rfl)

/-- Claim C9: adding a route stores the record under its name, closes the
add-route modal, and selects the new route's name. -/
theorem claim9_addRoute (s : AppState) (name : String) (src dst : Coord) :
    lookupRoute (handleAddRoute s name src dst).routes name =
      some { name := name, source := src, destination := dst } ∧
    (handleAddRoute s name src dst).showAddRoute = false ∧
    (handleAddRoute s name src dst).selectedRoute = name := by
  refine ⟨?_, rfl, rfl⟩
  simp [handleAddRoute, lookupRoute_addRoute]

end Atlas
